import Mathlib

/-!
Verification development for the `crunchyroll_beta` client library
(`src/crunchyroll_beta/sync/api.py`).

The embedding models the session/authentication lifecycle, the request
dispatcher, the response classifier, the HLS master-playlist parser and the
response normalizer.  Python dictionaries are modelled as association lists
with Python `dict` semantics (first-match lookup, in-place overwrite keeping
insertion position, append on fresh keys); the HTTP transport is modelled as
an oracle `Net` mapping a request descriptor to a status code, raw body text,
and decoded JSON body; exceptions are modelled with `Except`.
-/

/-- Decoded JSON values, as produced by `r.json()`. -/
inductive Json where
  | null : Json
  | bool (b : Bool) : Json
  | num (n : Int) : Json
  | str (s : String) : Json
  | arr (elems : List Json) : Json
  | obj (fields : List (String × Json)) : Json

/-- Python `dict` lookup: first matching key (keys are unique in dicts built
by the model's own operations). -/
def dictGet {α : Type} (d : List (String × α)) (k : String) : Option α :=
  match d with
  | [] => none
  | (k2, v) :: rest => if k2 = k then some v else dictGet rest k

/-- Python `d[k] = v`: overwrite the first occurrence in place (keeping its
position, as Python dicts keep insertion order), append if absent. -/
def dictSet {α : Type} (d : List (String × α)) (k : String) (v : α) :
    List (String × α) :=
  match d with
  | [] => [(k, v)]
  | (k2, w) :: rest =>
    if k2 = k then (k2, v) :: rest else (k2, w) :: dictSet rest k v

/-- Python `d.update(e)`: set every entry of `e` into `d`, left to right. -/
def dictUpdate {α : Type} (d e : List (String × α)) : List (String × α) :=
  match e with
  | [] => d
  | (k, v) :: rest => dictUpdate (dictSet d k v) rest

/-- Lookup of the last occurrence of a key (the value a Python `update` from
this list would leave behind for that key). -/
def dictGetLast {α : Type} (d : List (String × α)) (k : String) : Option α :=
  match d with
  | [] => none
  | (k2, v) :: rest =>
    match dictGetLast rest k with
    | some w => some w
    | none => if k2 = k then some v else none

/-- Python `k in d`. -/
def dictHasKey {α : Type} (d : List (String × α)) (k : String) : Bool :=
  (dictGet d k).isSome

/-- Field access `j.get(k)` on a decoded JSON object. -/
def jGet (j : Json) (k : String) : Option Json :=
  match j with
  | .obj kvs => dictGet kvs k
  | _ => none

/-- Python `j.get(k)` totalised with `None` (`Json.null`) as default. -/
def jGetD (j : Json) (k : String) : Json :=
  (jGet j k).getD Json.null

/-- Python `k in j` for a decoded JSON object. -/
def jHasKey (j : Json) (k : String) : Bool :=
  (jGet j k).isSome

/-- Python `str(...)` rendering of a JSON value where it is interpolated
into a string (only scalar shapes are exercised by the model). -/
def pyStr (j : Json) : String :=
  match j with
  | .null => "None"
  | .bool b => if b then "True" else "False"
  | .num n => toString n
  | .str s => s
  | .arr _ => "<list>"
  | .obj _ => "<dict>"

/-- Headers / params / form-data dictionaries (string keys and values). -/
abbrev HDict := List (String × String)

/-- The session/config dictionary (string keys, JSON values). -/
abbrev JDict := List (String × Json)

/-- One HTTP request as handed to the transport: the ephemeral Request
Descriptor (method, URL, finalized headers, query params, form body). -/
structure RequestDesc where
  method : String
  url : String
  headers : HDict
  params : HDict
  data : HDict

/-- The HTTP transport, as an oracle: status code, raw body text, and the
decoded JSON body (`r.status_code`, `r.text`, `r.json()`). -/
abbrev Net := RequestDesc → Nat × String × Json

/-- Error taxonomy.  In the source every error is the single class
`CrunchyrollError` distinguished only by its message string; the
constructors below record the distinguishing data of each message shape
(`"Client is not started yet!"`, `"[code] Invalid login credentials."`,
`"[code] Error occured: message"`, `"[code] text"`), plus the
`AttributeError` Python raises in `get_streams` when the stream-id regex
finds no match. -/
inductive CrError where
  | notStarted : CrError
  | authError (code : Nat) : CrError
  | apiError (code : Nat) (message : Json) : CrError
  | httpError (code : Nat) (text : String) : CrError
  | attrError : CrError

/-- Whether a call outcome is the `NotStarted` error. -/
def isNotStartedR {α : Type} (r : Except CrError α) : Bool :=
  match r with
  | .error .notStarted => true
  | _ => false

/-- Whether a call outcome is an `ApiError` (`message`/`code` body). -/
def isApiErrorR {α : Type} (r : Except CrError α) : Bool :=
  match r with
  | .error (.apiError _ _) => true
  | _ => false

/-- Whether a call outcome is an `AuthError` (`invalid_grant`). -/
def isAuthErrorR {α : Type} (r : Except CrError α) : Bool :=
  match r with
  | .error (.authError _) => true
  | _ => false

/-- Client state: credentials, the session/config dict `self.config`, the
baseline headers `self.api_headers`, and the module-level mutable default
value of `_make_request`'s `headers` parameter (Python evaluates the
`headers: Dict=dict()` default once, so calls omitting `headers` share and
mutate this single dict). -/
structure St where
  email : String
  password : String
  locale : String
  config : JDict
  api_headers : HDict
  default_headers : HDict

/-- The fixed baseline headers set in `__init__`. -/
def initApiHeaders : HDict :=
  [("User-Agent", "Mozilla/5.0 (Windows NT 10.0; Win64; x64) AppleWebKit/537.36 (KHTML, like Gecko) Chrome/96.0.4664.45 Safari/537.36"),
   ("Content-Type", "application/x-www-form-urlencoded")]

/-- Constructor `Crunchyroll.__init__`: empty config, baseline headers, fresh (empty)
shared default headers dict. -/
def initSt (email password locale : String) : St :=
  ⟨email, password, locale, [], initApiHeaders, []⟩

/-- Modelled from the spec: the fixed client authorization header constant
`AUTHORIZATION` lives in `utils`, which is not under `src/`; its value is an
opaque string and nothing depends on it. -/
def AUTHORIZATION : String := "Basic fixed-client-credentials"

/-- Modelled from the spec: the Endpoint Registry's token-exchange URL
(`utils`, not under `src/`).  The endpoint constants are only required to be
distinct strings. -/
def TOKEN_ENDPOINT : String := "https://beta-api.crunchyroll.com/auth/v1/token"

/-- Modelled from the spec: the index-document URL (`utils`, not under `src/`). -/
def INDEX_ENDPOINT : String := "https://beta-api.crunchyroll.com/index/v2"

/-- Modelled from the spec: the profile URL (`utils`, not under `src/`). -/
def PROFILE_ENDPOINT : String := "https://beta-api.crunchyroll.com/accounts/v1/me/profile"

/-- Modelled from the spec: the search URL (`utils`, not under `src/`). -/
def SEARCH_ENDPOINT : String := "https://beta-api.crunchyroll.com/content/v1/search"

/-- Modelled from the spec: the news-feed URL (`utils`, not under `src/`). -/
def NEWSFEED_ENDPOINT : String := "https://beta-api.crunchyroll.com/content/v1/news_feed"

/-- Modelled from the spec: the browse URL (`utils`, not under `src/`). -/
def BROWSE_ENDPOINT : String := "https://beta-api.crunchyroll.com/content/v1/browse"

/-- Modelled from the spec: `SERIES_ENDPOINT.format(bucket, series_id)`
(`utils`, not under `src/`). -/
def seriesEndpoint (bucket series_id : String) : String :=
  "https://beta-api.crunchyroll.com/cms/v2" ++ bucket ++ "/series/" ++ series_id

/-- Modelled from the spec: `SEASONS_ENDPOINT.format(bucket)` (`utils`, not
under `src/`). -/
def seasonsEndpoint (bucket : String) : String :=
  "https://beta-api.crunchyroll.com/cms/v2" ++ bucket ++ "/seasons"

/-- Modelled from the spec: `EPISODES_ENDPOINT.format(bucket)` (`utils`, not
under `src/`). -/
def episodesEndpoint (bucket : String) : String :=
  "https://beta-api.crunchyroll.com/cms/v2" ++ bucket ++ "/episodes"

/-- Modelled from the spec: `STREAMS_ENDPOINT.format(bucket, stream_id)`
(`utils`, not under `src/`). -/
def streamsEndpoint (bucket stream_id : String) : String :=
  "https://beta-api.crunchyroll.com/cms/v2" ++ bucket ++ "/videos/" ++ stream_id ++ "/streams"

/-- Modelled from the spec: `SIMILAR_ENDPOINT.format(account_id)` (`utils`,
not under `src/`). -/
def similarEndpoint (account_id : String) : String :=
  "https://beta-api.crunchyroll.com/content/v1/" ++ account_id ++ "/similar_to"

/-- Accumulate the value of a leading run of decimal digits. -/
def digitsAcc (acc : Nat) : List Char → Nat
  | [] => acc
  | c :: rest => if c.isDigit then digitsAcc (acc * 10 + (c.toNat - 48)) rest else acc

/-- Modelled from the spec: `str_to_date` and `get_date` live in `utils`,
which is not under `src/`.  The spec only requires a consistent clock and an
order-preserving parse of the `cms.expires` timestamp string, so timestamps
are modelled as naturals and the parse as a decimal read. -/
def strToDate (s : String) : Nat := digitsAcc 0 s.data

/-- Result of one (possibly compound) call: the client state afterwards, the
caller's headers dict as left after in-place mutation, the requests issued
(in order), and the Python return/raise outcome. -/
structure CallOut (α : Type) where
  st : St
  headersOut : HDict
  trace : List RequestDesc
  result : Except CrError α

/-- Prepend already-issued requests to a continuation's outcome. -/
def withTrace {α : Type} (tr : List RequestDesc) (o : CallOut α) : CallOut α :=
  ⟨o.st, o.headersOut, tr ++ o.trace, o.result⟩

/-- Whether `r_json.get("error")` equals the string `"invalid_grant"`
(Python `==` against a string is `True` only for that same string). -/
def isInvalidGrant (v : Option Json) : Bool :=
  match v with
  | some (.str s) => s = "invalid_grant"
  | _ => false

/-- Classification of a decoded response (`api.py` lines 51-62): a body with
an `error` field raises `AuthError` when the value is `invalid_grant` and
otherwise falls through (the `elif` skips the `message`/`code` check); a
body with no `error` field but both `message` and `code` raises `ApiError`;
otherwise a non-200 status raises `HttpError`; otherwise the body is
returned unchanged. -/
def classify (code : Nat) (text : String) (rjson : Json) : Except CrError Json :=
  if jHasKey rjson "error" then
    if isInvalidGrant (jGet rjson "error") then
      Except.error (CrError.authError code)
    else if code ≠ 200 then
      Except.error (CrError.httpError code text)
    else
      Except.ok rjson
  else if jHasKey rjson "message" && jHasKey rjson "code" then
    Except.error (CrError.apiError code (jGetD rjson "message"))
  else if code ≠ 200 then
    Except.error (CrError.httpError code text)
  else
    Except.ok rjson

/-- Finalized headers of one request: the caller's dict (or the shared
mutable default when the `headers` argument is omitted) updated in place
with `api_headers` (`headers.update(self.api_headers)` — baseline wins on
key conflicts). -/
def finalHeaders (st : St) (hdrs : Option HDict) : HDict :=
  dictUpdate
    (match hdrs with
      | some h => h
      | none => st.default_headers)
    st.api_headers

/-- The Request Descriptor handed to the transport by `_make_request`. -/
def builtRequest (st : St) (method url : String) (hdrs : Option HDict)
    (params data : HDict) : RequestDesc :=
  ⟨method, url, finalHeaders st hdrs, params, data⟩

/-- Client state after the header finalization: when the `headers` argument
was omitted, the mutation of the shared default dict persists. -/
def stAfterRaw (st : St) (hdrs : Option HDict) : St :=
  match hdrs with
  | some _ => st
  | none => { st with default_headers := finalHeaders st hdrs }

/-- Outcome of one classified request. -/
def rawResult (net : Net) (st : St) (method url : String)
    (hdrs : Option HDict) (params data : HDict) : Except CrError Json :=
  classify (net (builtRequest st method url hdrs params data)).1
    (net (builtRequest st method url hdrs params data)).2.1
    (net (builtRequest st method url hdrs params data)).2.2

/-- The body of `_make_request` after its two session guards: finalize the
headers (mutating the caller's dict, or the shared default, in place),
issue the request, and classify the decoded body. -/
def rawRequest (net : Net) (st : St) (method url : String)
    (hdrs : Option HDict) (params data : HDict) : CallOut Json :=
  ⟨stAfterRaw st hdrs, finalHeaders st hdrs,
    [builtRequest st method url hdrs params data],
    rawResult net st method url hdrs params data⟩

/-- Merge `self.config.update(r)` with a decoded JSON body (always an object in
the scenarios the model exercises; a non-object would be a Python
`TypeError` and is modelled as a no-op). -/
def configUpdate (c : JDict) (j : Json) : JDict :=
  match j with
  | .obj kvs => dictUpdate c kvs
  | _ => c

/-- The form body of the token-exchange request (`_login` lines 70-75). -/
def tokenData (st : St) : HDict :=
  [("username", st.email), ("password", st.password),
   ("grant_type", "password"), ("scope", "offline_access")]

/-- State change after a successful token exchange (`_login` lines 78-82):
merge the token body into `config` and set the bearer `Authorization` entry
in `api_headers`. -/
def applyTokenResponse (st : St) (r1 : Json) : St :=
  { st with
      config := configUpdate st.config r1,
      api_headers := dictSet st.api_headers "Authorization"
        (pyStr (jGetD r1 "token_type") ++ " " ++ pyStr (jGetD r1 "access_token")) }

/-- The profile request of `_login` (headers omitted → shared default). -/
def profileRequest (st2 : St) : RequestDesc :=
  builtRequest st2 "GET" PROFILE_ENDPOINT none [] []

/-- Third login step (`_login` lines 85-86): fetch the profile (headers
omitted, so the shared default dict is used) and merge it into `config`. -/
def loginProfile (net : Net) (st2 : St) : CallOut Unit :=
  match rawResult net st2 "GET" PROFILE_ENDPOINT none [] [] with
  | .error e =>
    ⟨stAfterRaw st2 none, finalHeaders st2 none, [profileRequest st2], .error e⟩
  | .ok r3 =>
    ⟨{ stAfterRaw st2 none with
        config := configUpdate (stAfterRaw st2 none).config r3 },
      finalHeaders st2 none, [profileRequest st2], .ok ()⟩

/-- The index request of `_login` (headers omitted → shared default). -/
def indexRequest (st1 : St) : RequestDesc :=
  builtRequest st1 "GET" INDEX_ENDPOINT none [] []

/-- Second login step (`_login` lines 83-84): fetch the index document and
merge it into `config` (this supplies the `cms` block), then run the
profile step. -/
def loginIndex (net : Net) (st1 : St) : CallOut Unit :=
  match rawResult net st1 "GET" INDEX_ENDPOINT none [] [] with
  | .error e =>
    ⟨stAfterRaw st1 none, finalHeaders st1 none, [indexRequest st1], .error e⟩
  | .ok r2 =>
    withTrace [indexRequest st1]
      (loginProfile net
        { stAfterRaw st1 none with
            config := configUpdate (stAfterRaw st1 none).config r2 })

/-- The fixed headers dict of the token-exchange request. -/
def tokenHeaders : HDict := [("Authorization", AUTHORIZATION)]

/-- The token-exchange request of `_login`. -/
def tokenRequest (st : St) : RequestDesc :=
  builtRequest st "POST" TOKEN_ENDPOINT (some tokenHeaders) [] (tokenData st)

/-- Method `_login` (lines 64-86): token exchange with the fixed client
authorization header, then index, then profile.  Each step's merge into
`config` happens before the next step, so a failure in a later step leaves
the earlier merges behind. -/
def login (net : Net) (st : St) : CallOut Unit :=
  match rawResult net st "POST" TOKEN_ENDPOINT (some tokenHeaders) []
      (tokenData st) with
  | .error e =>
    ⟨st, finalHeaders st (some tokenHeaders), [tokenRequest st], .error e⟩
  | .ok r1 =>
    withTrace [tokenRequest st] (loginIndex net (applyTokenResponse st r1))

/-- Parse of `self.config["cms"]["expires"]` (a string timestamp; any other
shape would be a Python error and is not exercised). -/
def cmsExpires (cms : Json) : Nat :=
  match jGet cms "expires" with
  | some (.str s) => strToDate s
  | _ => 0

/-- Method `_update_session` (lines 88-93): when a `cms` block is present, re-login
exactly when the current time is strictly greater than the parsed
`cms.expires`; otherwise (and when no `cms` block exists) do nothing. -/
def update_session (net : Net) (now : Nat) (st : St) : CallOut Unit :=
  match dictGet st.config "cms" with
  | some cms =>
    if now > cmsExpires cms then login net st else ⟨st, [], [], .ok ()⟩
  | none => ⟨st, [], [], .ok ()⟩

/-- The session phase of `_make_request`: a no-op for login calls, the
`_update_session` check otherwise. -/
def sessionPhase (net : Net) (now : Nat) (st : St) (login_flag : Bool) :
    CallOut Unit :=
  if login_flag then ⟨st, [], [], .ok ()⟩ else update_session net now st

/-- Method `_make_request` (lines 38-62): raise `NotStarted` when the config is
empty and this is not a login call; otherwise run `_update_session` first
(unless a login call), then issue and classify the request. -/
def make_request (net : Net) (now : Nat) (st : St) (method url : String)
    (hdrs : Option HDict) (params data : HDict) (login_flag : Bool) :
    CallOut Json :=
  if st.config.isEmpty && !login_flag then
    ⟨st,
      (match hdrs with
        | some h => h
        | none => st.default_headers),
      [], .error CrError.notStarted⟩
  else
    match sessionPhase net now st login_flag with
    | ⟨st1, h1, tr1, .error e⟩ => ⟨st1, h1, tr1, .error e⟩
    | ⟨st1, _, tr1, .ok _⟩ =>
      ⟨stAfterRaw st1 hdrs, finalHeaders st1 hdrs,
        tr1 ++ [builtRequest st1 method url hdrs params data],
        rawResult net st1 method url hdrs params data⟩

/-- Modelled from the spec: the typed response entities live in `types`,
which is not under `src/`; the spec treats them as plain structured records
assembled from the decoded JSON mapping (`Collection(**mapping)`), so each
is modelled as a carrier of that mapping. -/
structure Collection where
  fields : JDict

/-- Modelled from the spec: plain record assembled from JSON (see
`Collection`). -/
structure Series where
  fields : JDict

/-- Modelled from the spec: plain record assembled from JSON (see
`Collection`). -/
structure Season where
  fields : JDict

/-- Modelled from the spec: plain record assembled from JSON (see
`Collection`). -/
structure Episode where
  fields : JDict

/-- Modelled from the spec: plain record assembled from JSON (see
`Collection`). -/
structure StreamsInfo where
  fields : JDict

/-- Modelled from the spec: plain record assembled from JSON (see
`Collection`). -/
structure Panel where
  fields : JDict

/-- Modelled from the spec: plain record assembled from JSON (see
`Collection`). -/
structure NewsFeed where
  fields : JDict

/-- The underlying mapping of a JSON object (`**`-spreading site). -/
def asObjD (j : Json) : JDict :=
  match j with
  | .obj kvs => kvs
  | _ => []

/-- The list `r.get("items")` iterated by the comprehensions. -/
def itemsOf (r : Json) : List Json :=
  match jGetD r "items" with
  | .arr l => l
  | _ => []

/-- Rendering of `self.config.get("cms", {}).get(k)` where it is passed as a
URL fragment or query parameter. -/
def cmsGet (st : St) (k : String) : Json :=
  match dictGet st.config "cms" with
  | some c => jGetD c k
  | none => Json.null

/-- String form of a `cms` signing field as it appears in a request. -/
def cmsParam (st : St) (k : String) : String := pyStr (cmsGet st k)

/-- Rendering of `self.config.get(k)` as a URL fragment. -/
def configParam (st : St) (k : String) : String :=
  match dictGet st.config k with
  | some v => pyStr v
  | none => "None"

/-- The `Policy`/`Signature`/`Key-Pair-Id`/`locale` query parameters shared
by the CMS-signed endpoints. -/
def signingParams (st : St) : HDict :=
  [("Policy", cmsParam st "policy"), ("Signature", cmsParam st "signature"),
   ("Key-Pair-Id", cmsParam st "key_pair_id"), ("locale", st.locale)]

/-- Query parameters of `search`. -/
def searchParams (st : St) (query : String) (n : Nat) : HDict :=
  [("q", query), ("n", toString n), ("locale", st.locale)]

/-- Method `search` (lines 95-117): dispatch, then either the raw decoded body
(`raw_json=True`) or one `Collection` per element of `items`. -/
def search (net : Net) (now : Nat) (st : St) (query : String) (n : Nat)
    (raw_json : Bool) : CallOut (Json ⊕ List Collection) :=
  let o := make_request net now st "GET" SEARCH_ENDPOINT none
    (searchParams st query n) [] false
  ⟨o.st, o.headersOut, o.trace,
    o.result.map (fun r =>
      if raw_json then Sum.inl r
      else Sum.inr ((itemsOf r).map (fun j => ⟨asObjD j⟩)))⟩

/-- Method `get_series` (lines 119-139). -/
def get_series (net : Net) (now : Nat) (st : St) (series_id : String)
    (raw_json : Bool) : CallOut (Json ⊕ Series) :=
  let o := make_request net now st "GET"
    (seriesEndpoint (cmsParam st "bucket") series_id) none
    (signingParams st) [] false
  ⟨o.st, o.headersOut, o.trace,
    o.result.map (fun r =>
      if raw_json then Sum.inl r else Sum.inr ⟨asObjD r⟩)⟩

/-- Method `get_seasons` (lines 141-162). -/
def get_seasons (net : Net) (now : Nat) (st : St) (series_id : String)
    (raw_json : Bool) : CallOut (Json ⊕ List Season) :=
  let o := make_request net now st "GET"
    (seasonsEndpoint (cmsParam st "bucket")) none
    (("series_id", series_id) :: signingParams st) [] false
  ⟨o.st, o.headersOut, o.trace,
    o.result.map (fun r =>
      if raw_json then Sum.inl r
      else Sum.inr ((itemsOf r).map (fun j => ⟨asObjD j⟩)))⟩

/-- Method `get_episodes` (lines 164-185). -/
def get_episodes (net : Net) (now : Nat) (st : St) (season_id : String)
    (raw_json : Bool) : CallOut (Json ⊕ List Episode) :=
  let o := make_request net now st "GET"
    (episodesEndpoint (cmsParam st "bucket")) none
    (("season_id", season_id) :: signingParams st) [] false
  ⟨o.st, o.headersOut, o.trace,
    o.result.map (fun r =>
      if raw_json then Sum.inl r
      else Sum.inr ((itemsOf r).map (fun j => ⟨asObjD j⟩)))⟩

/-- Prefix match on character lists: `startsWithL pat s` holds when `pat`
is an initial segment of `s`. -/
def startsWithL : List Char → List Char → Bool
  | [], _ => true
  | _ :: _, [] => false
  | p :: ps, c :: cs => p = c && startsWithL ps cs

/-- Strip a literal pattern from the front of a character list. -/
def stripL : List Char → List Char → Option (List Char)
  | [], s => some s
  | _ :: _, [] => none
  | p :: ps, c :: cs => if p = c then stripL ps cs else none

/-- Shortest non-empty capture before the first occurrence of `marker`
(the semantics of a non-greedy `(.+?)` followed by a literal). -/
def capToMarker (marker : List Char) : List Char → Option (List Char)
  | [] => none
  | c :: rest =>
    if startsWithL marker rest then some [c]
    else
      match capToMarker marker rest with
      | some cap => some (c :: cap)
      | none => none

/-- Scan for the first position where `videos/(.+?)/streams` matches
(leftmost match, then minimal capture). -/
def svsGo : List Char → Option String
  | [] => none
  | c :: rest =>
    match stripL ("videos/".data) (c :: rest) with
    | some after =>
      match capToMarker ("/streams".data) after with
      | some cap => some (String.mk cap)
      | none => svsGo rest
    | none => svsGo rest

/-- The stream-id extraction in `get_streams` (line 197):
`re.search(r"videos\/(.+?)\/streams", href).group(1)`.  A failed search is
a Python `AttributeError` (`group` on `None`), modelled as `none`. -/
def searchVideosStreams (href : String) : Option String := svsGo href.data

/-- Modelled from the spec: the field the Response Normalizer moves the
empty-string key to.  `fixup` lives in `utils`, which is not under `src/`,
and the spec does not name the intended field; only that it is a proper
(non-empty) field name matters. -/
def FIXUP_FIELD : String := "raw"

/-- Remove every entry with the given key (Python `del d[k]`). -/
def dictRemove {α : Type} (d : List (String × α)) (k : String) :
    List (String × α) :=
  match d with
  | [] => []
  | (k2, v) :: rest =>
    if k2 = k then dictRemove rest k else (k2, v) :: dictRemove rest k

/-- Modelled from the spec: repair of one mapping — when it contains an
empty-string key, relocate that entry to `FIXUP_FIELD` in place; otherwise
leave it untouched. -/
def fixupObj (j : Json) : Json :=
  match j with
  | .obj kvs =>
    match dictGet kvs "" with
    | some v => .obj (dictSet (dictRemove kvs "") FIXUP_FIELD v)
    | none => .obj kvs
  | other => other

/-- Modelled from the spec: the Response Normalizer `fixup` (`utils`, not
under `src/`): given a decoded stream-metadata JSON object, repair the known
defect where a nested mapping uses an empty string as a key, by renaming
that entry to its intended field name in place; non-object bodies and all
other entries pass through untouched. -/
def fixup (body : Json) : Json :=
  match body with
  | .obj kvs => .obj (kvs.map (fun p => (p.1, fixupObj p.2)))
  | other => other

/-- Method `get_streams` (lines 187-212): extract the stream id from the episode's
streams href (an `AttributeError` when the pattern finds no match), then
dispatch, apply the normalizer `fixup` to the decoded body, and return it
raw or as a `StreamsInfo` record. -/
def get_streams (net : Net) (now : Nat) (st : St) (href : String)
    (raw_json : Bool) : CallOut (Json ⊕ StreamsInfo) :=
  match searchVideosStreams href with
  | none => ⟨st, [], [], .error CrError.attrError⟩
  | some stream_id =>
    let o := make_request net now st "GET"
      (streamsEndpoint (cmsParam st "bucket") stream_id) none
      (signingParams st) [] false
    ⟨o.st, o.headersOut, o.trace,
      o.result.map (fun r =>
        let r2 := fixup r
        if raw_json then Sum.inl r2 else Sum.inr ⟨asObjD r2⟩)⟩

/-- Method `get_similar` (lines 214-236). -/
def get_similar (net : Net) (now : Nat) (st : St) (series_id : String)
    (n : Nat) (raw_json : Bool) : CallOut (Json ⊕ List Panel) :=
  let o := make_request net now st "GET"
    (similarEndpoint (configParam st "account_id")) none
    [("guid", series_id), ("n", toString n), ("locale", st.locale)] [] false
  ⟨o.st, o.headersOut, o.trace,
    o.result.map (fun r =>
      if raw_json then Sum.inl r
      else Sum.inr ((itemsOf r).map (fun j => ⟨asObjD j⟩)))⟩

/-- Method `news_feed` (lines 238-257). -/
def news_feed (net : Net) (now : Nat) (st : St) (n : Nat) (raw_json : Bool) :
    CallOut (Json ⊕ NewsFeed) :=
  let o := make_request net now st "GET" NEWSFEED_ENDPOINT none
    [("n", toString n), ("locale", st.locale)] [] false
  ⟨o.st, o.headersOut, o.trace,
    o.result.map (fun r =>
      if raw_json then Sum.inl r else Sum.inr ⟨asObjD r⟩)⟩

/-- Method `browse` (lines 259-282). -/
def browse (net : Net) (now : Nat) (st : St) (sort_by : String) (n : Nat)
    (raw_json : Bool) : CallOut (Json ⊕ List Panel) :=
  let o := make_request net now st "GET" BROWSE_ENDPOINT none
    [("sort_by", sort_by), ("n", toString n), ("locale", st.locale)] [] false
  ⟨o.st, o.headersOut, o.trace,
    o.result.map (fun r =>
      if raw_json then Sum.inl r
      else Sum.inr ((itemsOf r).map (fun j => ⟨asObjD j⟩)))⟩

/-- Whitespace for Python `str.strip()`. -/
def isWS (c : Char) : Bool := c = ' ' || c = '\t' || c = '\r' || c = '\n'

/-- Python `str.strip()` on a character list. -/
def trimL (s : List Char) : List Char :=
  ((s.dropWhile isWS).reverse.dropWhile isWS).reverse

/-- Python `text.split("\n")` on a character list. -/
def splitOnNl : List Char → List (List Char)
  | [] => [[]]
  | c :: rest =>
    if c = '\n' then [] :: splitOnNl rest
    else
      match splitOnNl rest with
      | [] => [[c]]
      | l :: ls => (c :: l) :: ls

/-- A required run of decimal digits (`\d+`): its value and the rest. -/
def takeDigits : List Char → List Char × List Char
  | [] => ([], [])
  | c :: rest =>
    if c.isDigit then
      match takeDigits rest with
      | (ds, r) => (c :: ds, r)
    else ([], c :: rest)

/-- Require at least one digit and return the parsed value. -/
def reqDigits (s : List Char) : Option (Nat × List Char) :=
  match takeDigits s with
  | ([], _) => none
  | (ds, r) => some (digitsAcc 0 ds, r)

/-- A decimal literal `\d+\.\d+`, returned verbatim as characters. -/
def takeFloatDigits (s : List Char) : Option (List Char × List Char) :=
  match takeDigits s with
  | ([], _) => none
  | (a, r) =>
    match r with
    | '.' :: r2 =>
      match takeDigits r2 with
      | ([], _) => none
      | (b, r3) => some (a ++ '.' :: b, r3)
    | _ => none

/-- The captured playlist attributes (regex groups 1-5). -/
structure PAttrs where
  bandwidth : Nat
  width : Nat
  height : Nat
  framerate : Option String
  codecs : String

/-- Optional `FRAME-RATE=<float>,` segment (group 4 of the pattern). -/
def pmFrameRate (s : List Char) : Option (Option String × List Char) :=
  match stripL ("FRAME-RATE=".data) s with
  | some r =>
    match takeFloatDigits r with
    | some (fr, r2) =>
      match r2 with
      | ',' :: r3 => some (some (String.mk fr), r3)
      | _ => none
    | none => none
  | none => some (none, s)

/-- The quoted `CODECS="..."` segment (group 5 of the pattern): the capture
is everything up to the closing quote, which must be present. -/
def pmCodecs (s : List Char) : Option String :=
  match stripL ("CODECS=".data) s with
  | some r =>
    match r with
    | '"' :: r2 =>
      match r2.dropWhile (fun c => c ≠ '"') with
      | '"' :: _ => some (String.mk (r2.takeWhile (fun c => c ≠ '"')))
      | _ => none
    | _ => none
  | none => none

/-- One playlist rendition record (`PlaylistItem(**frmt)` in `get_formats`;
the `PlaylistItem` type itself lives in `types`, not under `src/`, and is
modelled from the spec's Rendition Record
`{url, bandwidth, width, height, framerate, codecs}`). -/
structure PlaylistItem where
  url : String
  bandwidth : Nat
  width : Nat
  height : Nat
  framerate : Option String
  codecs : String

/-- Modelled from the spec: the variant-stream line pattern `PLAYLIST_REG`
lives in `utils`, which is not under `src/`.  Per the spec it matches a
line of the shape
`#EXT-X-STREAM-INF:BANDWIDTH=<digits>,RESOLUTION=<digits>x<digits>,FRAME-RATE=<float>,CODECS="<list>"`
capturing bandwidth, width, height, an optional framerate, and the codecs
list (`re.match`, so the match is anchored at the start of the line only). -/
def pmatch (line : List Char) : Option PAttrs :=
  match stripL ("#EXT-X-STREAM-INF:BANDWIDTH=".data) line with
  | none => none
  | some s1 =>
    match reqDigits s1 with
    | none => none
    | some (bw, s2) =>
      match stripL (",RESOLUTION=".data) s2 with
      | none => none
      | some s3 =>
        match reqDigits s3 with
        | none => none
        | some (w, s4) =>
          match s4 with
          | 'x' :: s5 =>
            match reqDigits s5 with
            | none => none
            | some (h, s6) =>
              match s6 with
              | ',' :: s7 =>
                match pmFrameRate s7 with
                | none => none
                | some (fr, s8) =>
                  match pmCodecs s8 with
                  | none => none
                  | some cds => some ⟨bw, w, h, fr, cds⟩
              | _ => none
          | _ => none

/-- The scan loop of `get_formats` (lines 294-307): for each line (in
order) whose stripped text matches the pattern, emit a record whose `url`
is the stripped following line.  A match on the last line evaluates
`lines[i]` one past the end — the Python `IndexError` is modelled as
`Except.error ()`, which aborts the whole call as the exception does. -/
def scanFormats : List (List Char) → Except Unit (List PlaylistItem)
  | [] => .ok []
  | line :: rest =>
    match pmatch (trimL line) with
    | some a =>
      match rest with
      | [] => .error ()
      | next :: _ =>
        match scanFormats rest with
        | .ok items =>
          .ok (⟨String.mk (trimL next), a.bandwidth, a.width, a.height,
                a.framerate, a.codecs⟩ :: items)
        | .error e => .error e
    | none => scanFormats rest

/-- Method `get_formats` (lines 284-308): fetch the playlist text directly with
`httpx.get` — no session guard and no `_make_request` — split it on
newlines, and scan.  The first component records the URL fetched (the
network call is issued unconditionally); the client state is never read. -/
def get_formats (netText : String → String) (st : St) (url : String) :
    List String × Except Unit (List PlaylistItem) :=
  ([url], scanFormats (splitOnNl ((netText url).data)))

theorem dictGet_dictSet_self {α : Type} (d : List (String × α)) (k : String)
    (v : α) : dictGet (dictSet d k v) k = some v := by
  induction d with
  | nil => simp [dictSet, dictGet]
  | cons p rest ih =>
    by_cases h : p.1 = k
    · simp [dictSet, dictGet, h]
    · simp [dictSet, dictGet, h, ih]

theorem dictGet_dictSet_ne {α : Type} (d : List (String × α)) (k k2 : String)
    (v : α) (h : k2 ≠ k) : dictGet (dictSet d k v) k2 = dictGet d k2 := by
  have h2 : ¬ k = k2 := fun hh => h (Eq.symm hh)
  induction d with
  | nil => simp [dictSet, dictGet, h2]
  | cons p rest ih =>
    by_cases hp : p.1 = k
    · simp [dictSet, dictGet, hp, h2]
    · by_cases hp2 : p.1 = k2
      · simp [dictSet, dictGet, hp, hp2, h]
      · simp [dictSet, dictGet, hp, hp2, ih]

theorem dictGetLast_none_dictUpdate {α : Type} (e d : List (String × α))
    (k : String) (h : dictGetLast e k = none) :
    dictGet (dictUpdate d e) k = dictGet d k := by
  induction e generalizing d with
  | nil => simp [dictUpdate]
  | cons p rest ih =>
    rw [dictUpdate]
    unfold dictGetLast at h
    rcases hr : dictGetLast rest k with _ | w
    · rw [hr] at h
      have hk : ¬ p.1 = k := by
        intro hk
        rw [if_pos hk] at h
        exact Option.noConfusion h
      rw [ih _ hr, dictGet_dictSet_ne _ _ _ _ (fun hh => hk hh.symm)]
    · rw [hr] at h
      exact Option.noConfusion h

theorem dictGetLast_some_dictUpdate {α : Type} (e d : List (String × α))
    (k : String) (v : α) (h : dictGetLast e k = some v) :
    dictGet (dictUpdate d e) k = some v := by
  induction e generalizing d with
  | nil => exact Option.noConfusion h
  | cons p rest ih =>
    rw [dictUpdate]
    unfold dictGetLast at h
    rcases hr : dictGetLast rest k with _ | w
    · rw [hr] at h
      by_cases hk : p.1 = k
      · rw [if_pos hk] at h
        injection h with hv
        rw [dictGetLast_none_dictUpdate _ _ _ hr, ← hv, ← hk,
          dictGet_dictSet_self]
      · rw [if_neg hk] at h
        exact Option.noConfusion h
    · rw [hr] at h
      injection h with hv
      rw [hv] at hr
      rw [ih _ hr]

theorem dictGetLast_isSome {α : Type} (d : List (String × α)) (k : String) :
    (dictGetLast d k).isSome = (dictGet d k).isSome := by
  induction d with
  | nil => rfl
  | cons p rest ih =>
    unfold dictGetLast dictGet
    rcases hr : dictGetLast rest k with _ | w
    · rw [hr] at ih
      by_cases hk : p.1 = k
      · simp [hk]
      · simp [hk, ← ih]
    · rw [hr] at ih
      by_cases hk : p.1 = k
      · simp [hk]
      · simp [hk, ← ih]

theorem dictHasKey_dictUpdate {α : Type} (d e : List (String × α))
    (k : String) :
    dictHasKey (dictUpdate d e) k = (dictHasKey d k || dictHasKey e k) := by
  unfold dictHasKey
  rcases hr : dictGetLast e k with _ | w
  · rw [dictGetLast_none_dictUpdate _ _ _ hr]
    have := dictGetLast_isSome e k
    rw [hr] at this
    rw [← this]
    simp
  · rw [dictGetLast_some_dictUpdate _ _ _ _ hr]
    have := dictGetLast_isSome e k
    rw [hr] at this
    rw [← this]
    simp

theorem dictGet_some_not_isEmpty {α : Type} (d : List (String × α))
    (k : String) (v : α) (h : dictGet d k = some v) : d.isEmpty = false := by
  cases d with
  | nil => exact Option.noConfusion h
  | cons p rest => rfl

theorem classify_ok_eq (code : Nat) (text : String) (j v : Json)
    (h : classify code text j = Except.ok v) : v = j := by
  unfold classify at h
  repeat' split at h
  all_goals first
    | exact Except.noConfusion h
    | (injection h with h2; exact h2.symm)

theorem classify_not_notStarted (code : Nat) (text : String) (j : Json) :
    classify code text j ≠ Except.error CrError.notStarted := by
  unfold classify
  repeat' split
  all_goals intro h
  all_goals first
    | exact Except.noConfusion h
    | (injection h with h2; exact CrError.noConfusion h2)

theorem dictGet_dictRemove_self {α : Type} (d : List (String × α))
    (k : String) : dictGet (dictRemove d k) k = none := by
  induction d with
  | nil => rfl
  | cons p rest ih =>
    by_cases hp : p.1 = k
    · simp [dictRemove, hp, ih]
    · simp [dictRemove, dictGet, hp, ih]

theorem fixupObj_idem (j : Json) : fixupObj (fixupObj j) = fixupObj j := by
  cases j with
  | obj kvs =>
    rcases hg : dictGet kvs "" with _ | v
    · simp [fixupObj, hg]
    · have hne : dictGet (dictSet (dictRemove kvs "") FIXUP_FIELD v) "" = none := by
        rw [dictGet_dictSet_ne _ _ _ _ (by decide)]
        exact dictGet_dictRemove_self _ _
      simp [fixupObj, hg, hne]
  | null => rfl
  | bool b => rfl
  | num n => rfl
  | str s => rfl
  | arr l => rfl

theorem fixup_map_idem (kvs : List (String × Json)) :
    (kvs.map (fun p => (p.1, fixupObj p.2))).map (fun p => (p.1, fixupObj p.2))
      = kvs.map (fun p => (p.1, fixupObj p.2)) := by
  induction kvs with
  | nil => rfl
  | cons p rest ih => simp only [List.map_cons, ih, fixupObj_idem]

/-- C9: the Response Normalizer is idempotent on stream-metadata bodies —
for every decoded JSON object, applying `fixup` twice yields the same
result as applying it once (the relocated empty-string entry is gone after
the first pass, so the second pass finds nothing to repair). -/
theorem fixup_idempotent (body : Json) : fixup (fixup body) = fixup body := by
  cases body with
  | obj kvs =>
    simp only [fixup]
    rw [fixup_map_idem]
  | null => rfl
  | bool b => rfl
  | num n => rfl
  | str s => rfl
  | arr l => rfl

/-- A response body carrying an `error` field that is not `invalid_grant`
together with a `message`/`code` pair. -/
def bodyErrMsgCode : Json :=
  Json.obj [("error", Json.str "server_error"), ("message", Json.str "boom"),
    ("code", Json.str "error.internal")]

/-- A response body with a `message`/`code` pair and no `error` field. -/
def bodyMsgCode : Json :=
  Json.obj [("message", Json.str "boom"), ("code", Json.str "error.internal")]

/-- A response body with `error = invalid_grant` plus a `message`/`code`
pair. -/
def bodyGrantMsg : Json :=
  Json.obj [("error", Json.str "invalid_grant"),
    ("message", Json.str "Invalid credentials"), ("code", Json.str "auth.error")]

/-- C4 counterexample: a decoded body containing `message` and `code`
together with an `error` field whose value is not `invalid_grant` is NOT
classified as `ApiError` — the `elif` is skipped because the `error` branch
was taken, so at status 200 the body is returned as a success, and at a
non-200 status the failure is the raw `HttpError`, contradicting the claim
that every non-grant body with `message` and `code` fails with `ApiError`. -/
theorem error_field_skips_api_error :
    classify 200 "raw" bodyErrMsgCode = Except.ok bodyErrMsgCode ∧
    isApiErrorR (classify 200 "raw" bodyErrMsgCode) = false ∧
    isApiErrorR (classify 500 "raw" bodyErrMsgCode) = false :=
  ⟨rfl, rfl, rfl⟩

/-- C4 amended: a decoded body with no `error` field containing both
`message` and `code` fails with `ApiError` carrying that message and the
HTTP status code; a body whose `error` field is present but not
`invalid_grant` skips the `message`/`code` check entirely and falls through
to the raw-status check. -/
theorem message_code_classification (code : Nat) (text : String) (j : Json) :
    (jHasKey j "error" = false → jHasKey j "message" = true →
      jHasKey j "code" = true →
      classify code text j
        = Except.error (CrError.apiError code (jGetD j "message"))) ∧
    (jHasKey j "error" = true → isInvalidGrant (jGet j "error") = false →
      classify code text j
        = if code ≠ 200 then Except.error (CrError.httpError code text)
          else Except.ok j) := by
  constructor
  · intro h1 h2 h3
    simp [classify, h1, h2, h3]
  · intro h1 h2
    simp [classify, h1, h2]

/-- C4 witness: the amended classification evaluated on a concrete
`message`/`code` body with no `error` field. -/
theorem message_code_classification_witness :
    classify 500 "raw" bodyMsgCode
      = Except.error (CrError.apiError 500 (Json.str "boom")) :=
  (message_code_classification 500 "raw" bodyMsgCode).1 rfl rfl rfl

/-- C5: a body whose `error` field equals `invalid_grant` is classified as
the authentication failure even when it also carries both a `message` and a
`code` field — the grant-error check runs before the generic
`message`/`code` check and only the first matching classification applies. -/
theorem invalid_grant_precedence (code : Nat) (text : String) (j : Json)
    (herr : jGet j "error" = some (Json.str "invalid_grant"))
    (hmsg : jHasKey j "message" = true) (hcode : jHasKey j "code" = true) :
    classify code text j = Except.error (CrError.authError code) ∧
    isApiErrorR (classify code text j) = false := by
  have hcl : classify code text j = Except.error (CrError.authError code) := by
    simp [classify, jHasKey, herr, isInvalidGrant]
  exact ⟨hcl, by rw [hcl]; rfl⟩

/-- C5 witness: the precedence evaluated on a concrete body carrying both
the grant error and a `message`/`code` pair. -/
theorem invalid_grant_precedence_witness :
    classify 401 "raw" bodyGrantMsg = Except.error (CrError.authError 401) ∧
    isApiErrorR (classify 401 "raw" bodyGrantMsg) = false :=
  invalid_grant_precedence 401 "raw" bodyGrantMsg rfl rfl rfl

/-- The literal example's first variant-stream descriptor line. -/
def exampleLine1 : String :=
  "#EXT-X-STREAM-INF:BANDWIDTH=831200,RESOLUTION=640x360,FRAME-RATE=23.976,CODECS=\"avc1,mp4a\""

/-- The literal example's first variant URL line. -/
def exampleUrl1 : String := "http://example.com/360p.m3u8"

/-- The literal example's second variant-stream descriptor line. -/
def exampleLine2 : String :=
  "#EXT-X-STREAM-INF:BANDWIDTH=2145000,RESOLUTION=1920x1080,FRAME-RATE=23.976,CODECS=\"avc1,mp4a\""

/-- The literal example's second variant URL line. -/
def exampleUrl2 : String := "http://example.com/1080p.m3u8"

/-- The four-line literal example playlist. -/
def examplePlaylist : String :=
  exampleLine1 ++ "\n" ++ exampleUrl1 ++ "\n" ++ exampleLine2 ++ "\n" ++ exampleUrl2

/-- C6: a playlist text ending in a line that matches the variant-stream
pattern with no following URL line makes the scan read one line past the
end — the modelled Python `IndexError` — rather than skipping the match or
failing with a `MalformedPlaylist` error: the parse of the one-line playlist
consisting solely of a matching descriptor aborts with the out-of-bounds
fault, both at the scan level and through `get_formats`. -/
theorem playlist_last_line_fault :
    (pmatch (trimL exampleLine1.data)).isSome = true ∧
    scanFormats (splitOnNl exampleLine1.data) = Except.error () ∧
    (get_formats (fun _ => exampleLine1) (initSt "e" "p" "en-US")
      "http://example.com/master.m3u8").2 = Except.error () :=
  ⟨rfl, rfl, rfl⟩

/-- C7: the four-line literal example parses to exactly two rendition
records in input order — bandwidth 831200 with 640x360 and bandwidth
2145000 with 1920x1080 — each `url` equal to the line immediately following
its descriptor. -/
theorem playlist_literal_example :
    (get_formats (fun _ => examplePlaylist) (initSt "e" "p" "en-US")
      "http://example.com/master.m3u8").2
    = Except.ok
      [⟨exampleUrl1, 831200, 640, 360, some "23.976", "avc1,mp4a"⟩,
       ⟨exampleUrl2, 2145000, 1920, 1080, some "23.976", "avc1,mp4a"⟩] := rfl

theorem make_request_ok_body (net : Net) (now : Nat) (st : St)
    (method url : String) (hdrs : Option HDict) (params data : HDict)
    (lf : Bool) (v : Json)
    (h : (make_request net now st method url hdrs params data lf).result
      = Except.ok v) :
    ∃ req, (make_request net now st method url hdrs params data lf).trace.getLast?
        = some req ∧
      req.url = url ∧ v = (net req).2.2 := by
  unfold make_request at h ⊢
  by_cases hg : (st.config.isEmpty && !lf) = true
  · rw [if_pos hg] at h
    exact Except.noConfusion h
  · rw [if_neg hg] at h ⊢
    rcases hsp : sessionPhase net now st lf with ⟨st1, h1, tr1, res⟩
    rw [hsp] at h
    cases res with
    | error e => exact Except.noConfusion h
    | ok u =>
      dsimp only at h ⊢
      refine ⟨builtRequest st1 method url hdrs params data, ?_, rfl, ?_⟩
      · rw [List.getLast?_append_cons]
        rfl
      · exact classify_ok_eq _ _ _ _ h

/-- C8: whenever a `raw_json=True` search succeeds, the returned value is
exactly the decoded JSON body of the dispatched search request — the body
the transport delivered for the last issued request, with no entity
construction applied. -/
theorem search_raw_json_roundtrip (net : Net) (now : Nat) (st : St)
    (query : String) (n : Nat) (v : Json ⊕ List Collection)
    (h : (search net now st query n true).result = Except.ok v) :
    ∃ req, (search net now st query n true).trace.getLast? = some req ∧
      req.url = SEARCH_ENDPOINT ∧ v = Sum.inl ((net req).2.2) := by
  have htr : (search net now st query n true).trace
      = (make_request net now st "GET" SEARCH_ENDPOINT none
          (searchParams st query n) [] false).trace := rfl
  have hres : (search net now st query n true).result
      = (make_request net now st "GET" SEARCH_ENDPOINT none
          (searchParams st query n) [] false).result.map
        (fun r => Sum.inl r) := by
    show Except.map _ _ = Except.map _ _
    cases (make_request net now st "GET" SEARCH_ENDPOINT none
      (searchParams st query n) [] false).result with
    | error e => rfl
    | ok r => rfl
  rw [hres] at h
  rcases hmk : (make_request net now st "GET" SEARCH_ENDPOINT none
      (searchParams st query n) [] false).result with e | r
  · rw [hmk] at h
    exact Except.noConfusion h
  · rw [hmk] at h
    injection h with h2
    obtain ⟨req, hlast, hurl, hbody⟩ :=
      make_request_ok_body net now st "GET" SEARCH_ENDPOINT none
        (searchParams st query n) [] false r hmk
    refine ⟨req, ?_, hurl, ?_⟩
    · rw [htr]
      exact hlast
    · rw [← h2, hbody]

/-- A benign search-response body. -/
def bodyItems : Json := Json.obj [("items", Json.arr [])]

/-- A transport that always answers 200 with the benign body. -/
def netOK : Net := fun _ => (200, "", bodyItems)

/-- A state with a non-empty session config and no `cms` block. -/
def stAuth : St :=
  { initSt "mail@example.com" "hunter2" "en-US" with
      config := [("access_token", Json.str "T")] }

/-- C8 witness: the round-trip evaluated on a concrete successful search. -/
theorem search_raw_json_roundtrip_witness :
    ∃ req, (search netOK 0 stAuth "cowboy bebop" 6 true).trace.getLast?
        = some req ∧
      req.url = SEARCH_ENDPOINT ∧
      (Sum.inl bodyItems : Json ⊕ List Collection)
        = Sum.inl ((netOK req).2.2) :=
  search_raw_json_roundtrip netOK 0 stAuth "cowboy bebop" 6
    (Sum.inl bodyItems) rfl

/-- Whether a call outcome is a success. -/
def isOkR {ε α : Type} (r : Except ε α) : Bool :=
  match r with
  | .ok _ => true
  | .error _ => false

/-- C3 counterexample: `get_formats` is a non-login public operation, yet on
a freshly constructed client it issues its network fetch unconditionally and
completes without any `NotStarted` failure — it never consults the session
state at all. -/
theorem get_formats_no_guard :
    (get_formats (fun _ => examplePlaylist) (initSt "e" "p" "en-US")
      "http://example.com/master.m3u8").1
      = ["http://example.com/master.m3u8"] ∧
    isOkR (get_formats (fun _ => examplePlaylist) (initSt "e" "p" "en-US")
      "http://example.com/master.m3u8").2 = true :=
  ⟨rfl, rfl⟩

/-- C3 amended: every non-login operation that dispatches through
`_make_request` — search, get_series, get_seasons, get_episodes,
get_streams (when its stream-id extraction succeeds), get_similar,
news_feed, browse — fails with the `NotStarted` error on a client with an
empty session state, with no request issued before the failure; `get_formats`
alone bypasses the guard and issues its fetch unconditionally. -/
theorem unauthenticated_guard (net : Net) (now : Nat) (st : St)
    (query sid sortBy href : String) (n : Nat) (rj : Bool)
    (hcfg : st.config = []) :
    ((search net now st query n rj).result = Except.error CrError.notStarted ∧
      (search net now st query n rj).trace = []) ∧
    ((get_series net now st sid rj).result = Except.error CrError.notStarted ∧
      (get_series net now st sid rj).trace = []) ∧
    ((get_seasons net now st sid rj).result = Except.error CrError.notStarted ∧
      (get_seasons net now st sid rj).trace = []) ∧
    ((get_episodes net now st sid rj).result = Except.error CrError.notStarted ∧
      (get_episodes net now st sid rj).trace = []) ∧
    (∀ sid2, searchVideosStreams href = some sid2 →
      (get_streams net now st href rj).result = Except.error CrError.notStarted ∧
      (get_streams net now st href rj).trace = []) ∧
    ((get_similar net now st sid n rj).result = Except.error CrError.notStarted ∧
      (get_similar net now st sid n rj).trace = []) ∧
    ((news_feed net now st n rj).result = Except.error CrError.notStarted ∧
      (news_feed net now st n rj).trace = []) ∧
    ((browse net now st sortBy n rj).result = Except.error CrError.notStarted ∧
      (browse net now st sortBy n rj).trace = []) ∧
    (∀ netText u, (get_formats netText st u).1 = [u]) := by
  refine ⟨?_, ?_, ?_, ?_, ?_, ?_, ?_, ?_, ?_⟩
  · constructor <;> simp [search, make_request, hcfg, Except.map]
  · constructor <;> simp [get_series, make_request, hcfg, Except.map]
  · constructor <;> simp [get_seasons, make_request, hcfg, Except.map]
  · constructor <;> simp [get_episodes, make_request, hcfg, Except.map]
  · intro sid2 hsv
    constructor <;> simp [get_streams, hsv, make_request, hcfg, Except.map]
  · constructor <;> simp [get_similar, make_request, hcfg, Except.map]
  · constructor <;> simp [news_feed, make_request, hcfg, Except.map]
  · constructor <;> simp [browse, make_request, hcfg, Except.map]
  · intro netText u
    rfl

/-- C3 witness: the guard evaluated on a freshly constructed client for a
concrete search call and a concrete get_streams call. -/
theorem unauthenticated_guard_witness :
    ((search netOK 0 (initSt "e" "p" "en-US") "q" 6 false).result
        = Except.error CrError.notStarted ∧
      (search netOK 0 (initSt "e" "p" "en-US") "q" 6 false).trace = []) ∧
    ((get_streams netOK 0 (initSt "e" "p" "en-US") "videos/GR1/streams" false).result
        = Except.error CrError.notStarted ∧
      (get_streams netOK 0 (initSt "e" "p" "en-US") "videos/GR1/streams" false).trace
        = []) :=
  ⟨(unauthenticated_guard netOK 0 (initSt "e" "p" "en-US") "q" "s" "newly_added"
      "videos/GR1/streams" 6 false rfl).1,
    (unauthenticated_guard netOK 0 (initSt "e" "p" "en-US") "q" "s" "newly_added"
      "videos/GR1/streams" 6 false rfl).2.2.2.2.1 "GR1" rfl⟩

theorem loginProfile_api_headers (net : Net) (st2 : St) :
    (loginProfile net st2).st.api_headers = st2.api_headers := by
  cases hr : rawResult net st2 "GET" PROFILE_ENDPOINT none [] [] with
  | error e => simp [loginProfile, hr, stAfterRaw]
  | ok r3 => simp [loginProfile, hr, stAfterRaw]

theorem loginIndex_api_headers (net : Net) (st1 : St) :
    (loginIndex net st1).st.api_headers = st1.api_headers := by
  cases hr : rawResult net st1 "GET" INDEX_ENDPOINT none [] [] with
  | error e => simp [loginIndex, hr, stAfterRaw]
  | ok r2 =>
    simp [loginIndex, hr, withTrace, loginProfile_api_headers, stAfterRaw]

/-- C10: the dispatcher mutates the caller's headers dict in place — after
a call with explicit headers the caller's dict equals its old contents
updated with the client baseline `api_headers`, the baseline winning on
every conflicting key; a call that omits the headers argument uses the one
shared default dict and its mutation persists in the client state, so the
next omitted-headers call starts from the accumulated entries; and a
successful token exchange installs the bearer `Authorization` entry into
`api_headers`, from where it is written into every later headers dict. -/
theorem headers_mutation_sharing (net : Net) (st : St)
    (method url m2 u2 : String) (h : HDict) (params data p2 d2 : HDict) :
    (rawRequest net st method url (some h) params data).headersOut
      = dictUpdate h st.api_headers ∧
    (∀ k v, dictGetLast st.api_headers k = some v →
      dictGet ((rawRequest net st method url (some h) params data).headersOut) k
        = some v) ∧
    (rawRequest net st method url none params data).st.default_headers
      = dictUpdate st.default_headers st.api_headers ∧
    (rawRequest net ((rawRequest net st method url none params data).st)
        m2 u2 none p2 d2).headersOut
      = dictUpdate (dictUpdate st.default_headers st.api_headers)
          st.api_headers ∧
    (∀ r1, rawResult net st "POST" TOKEN_ENDPOINT (some tokenHeaders) []
        (tokenData st) = Except.ok r1 →
      dictHasKey (login net st).st.api_headers "Authorization" = true) := by
  refine ⟨rfl, ?_, rfl, rfl, ?_⟩
  · intro k v hk
    exact dictGetLast_some_dictUpdate _ _ _ _ hk
  · intro r1 hr1
    have hst : (login net st).st.api_headers
        = (applyTokenResponse st r1).api_headers := by
      simp [login, hr1, withTrace, loginIndex_api_headers]
    rw [hst]
    unfold applyTokenResponse dictHasKey
    rw [dictGet_dictSet_self]
    rfl

/-- A fresh client state with concrete credentials. -/
def stFresh : St := initSt "mail@example.com" "hunter2" "en-US"

/-- C10 witness: baseline overwrite of a conflicting caller key, and the
`Authorization` entry after a concrete successful token exchange. -/
theorem headers_mutation_sharing_witness :
    dictGet ((rawRequest netOK stAuth "GET" SEARCH_ENDPOINT
        (some [("Content-Type", "text/plain")]) [] []).headersOut)
      "Content-Type" = some "application/x-www-form-urlencoded" ∧
    dictHasKey (login netOK stFresh).st.api_headers "Authorization" = true :=
  ⟨(headers_mutation_sharing netOK stAuth "GET" SEARCH_ENDPOINT "GET"
      SEARCH_ENDPOINT [("Content-Type", "text/plain")] [] [] [] []).2.1
      "Content-Type" "application/x-www-form-urlencoded" rfl,
    (headers_mutation_sharing netOK stFresh "GET" SEARCH_ENDPOINT "GET"
      SEARCH_ENDPOINT [] [] [] [] []).2.2.2.2 bodyItems rfl⟩

/-- Number of token-exchange requests (re-login attempts) in a trace. -/
def tokenCount (tr : List RequestDesc) : Nat :=
  (tr.filter (fun r => r.url == TOKEN_ENDPOINT)).length

theorem tokenCount_append (a b : List RequestDesc) :
    tokenCount (a ++ b) = tokenCount a + tokenCount b := by
  simp [tokenCount, List.filter_append]

theorem tokenCount_single (r : RequestDesc) :
    tokenCount [r] = if r.url = TOKEN_ENDPOINT then 1 else 0 := by
  by_cases hu : r.url = TOKEN_ENDPOINT <;> simp [tokenCount, hu]

theorem tokenCount_cons (r : RequestDesc) (tr : List RequestDesc) :
    tokenCount (r :: tr) = tokenCount [r] + tokenCount tr := by
  by_cases hu : r.url = TOKEN_ENDPOINT <;>
    simp [tokenCount, List.filter_cons, hu, Nat.add_comm]

theorem tokenCount_tokenRequest (st : St) : tokenCount [tokenRequest st] = 1 := by
  rw [tokenCount_single]
  rfl

theorem tokenCount_indexRequest (st1 : St) :
    tokenCount [indexRequest st1] = 0 := by
  rw [tokenCount_single]
  have hu : (indexRequest st1).url = INDEX_ENDPOINT := rfl
  rw [hu, if_neg (by decide)]

theorem tokenCount_profileRequest (st2 : St) :
    tokenCount [profileRequest st2] = 0 := by
  rw [tokenCount_single]
  have hu : (profileRequest st2).url = PROFILE_ENDPOINT := rfl
  rw [hu, if_neg (by decide)]

theorem loginProfile_trace (net : Net) (st2 : St) :
    (loginProfile net st2).trace = [profileRequest st2] := by
  cases hr : rawResult net st2 "GET" PROFILE_ENDPOINT none [] [] with
  | error e => simp [loginProfile, hr]
  | ok r3 => simp [loginProfile, hr]

theorem tokenCount_loginIndex (net : Net) (st1 : St) :
    tokenCount (loginIndex net st1).trace = 0 := by
  cases hr : rawResult net st1 "GET" INDEX_ENDPOINT none [] [] with
  | error e =>
    have ht : (loginIndex net st1).trace = [indexRequest st1] := by
      simp [loginIndex, hr]
    rw [ht]
    exact tokenCount_indexRequest st1
  | ok r2 =>
    have ht : (loginIndex net st1).trace
        = indexRequest st1 :: (loginProfile net
            { stAfterRaw st1 none with
                config := configUpdate (stAfterRaw st1 none).config r2 }).trace := by
      simp [loginIndex, hr, withTrace]
    rw [ht, tokenCount_cons, tokenCount_indexRequest, loginProfile_trace,
      tokenCount_profileRequest]

theorem tokenCount_login (net : Net) (st : St) :
    tokenCount (login net st).trace = 1 ∧
    (login net st).trace.head? = some (tokenRequest st) := by
  cases hr : rawResult net st "POST" TOKEN_ENDPOINT (some tokenHeaders) []
      (tokenData st) with
  | error e =>
    have ht : (login net st).trace = [tokenRequest st] := by simp [login, hr]
    rw [ht]
    exact ⟨tokenCount_tokenRequest st, rfl⟩
  | ok r1 =>
    have ht : (login net st).trace
        = tokenRequest st :: (loginIndex net (applyTokenResponse st r1)).trace := by
      simp [login, hr, withTrace]
    rw [ht, tokenCount_cons, tokenCount_tokenRequest, tokenCount_loginIndex]
    exact ⟨rfl, rfl⟩

theorem builtRequest_url (st : St) (method url : String) (hdrs : Option HDict)
    (params data : HDict) :
    (builtRequest st method url hdrs params data).url = url := rfl

theorem make_request_nonlogin (net : Net) (now : Nat) (st : St)
    (method url : String) (hdrs : Option HDict) (params data : HDict)
    (hne : st.config.isEmpty = false) :
    make_request net now st method url hdrs params data false
      = match update_session net now st with
        | ⟨st1, h1, tr1, .error e2⟩ => ⟨st1, h1, tr1, .error e2⟩
        | ⟨st1, _, tr1, .ok _⟩ =>
          ⟨stAfterRaw st1 hdrs, finalHeaders st1 hdrs,
            tr1 ++ [builtRequest st1 method url hdrs params data],
            rawResult net st1 method url hdrs params data⟩ := by
  unfold make_request
  rw [hne]
  rfl

/-- C1 amended: with a `cms` block present in the session state, a
non-login request triggers the re-login sequence exactly when `cms.expires`
parses to a time STRICTLY before the current time (the source checks
`current_time > expires_time`): the trace then contains exactly one
token-exchange request and it precedes the original request; when `expires`
equals the current time or lies in the future, no re-login occurs. -/
theorem expiry_gating_strict (net : Net) (now : Nat) (st : St)
    (method url : String) (params data : HDict) (cmsJ : Json) (e : String)
    (hcms : dictGet st.config "cms" = some cmsJ)
    (hexp : jGet cmsJ "expires" = some (Json.str e))
    (hurl : url ≠ TOKEN_ENDPOINT) :
    tokenCount (make_request net now st method url none params data false).trace
      = (if strToDate e < now then 1 else 0) ∧
    (strToDate e < now →
      ((make_request net now st method url none params data false).trace.head?.map
        (fun r => r.url)) = some TOKEN_ENDPOINT) := by
  have hne : st.config.isEmpty = false := by
    cases hc : st.config with
    | nil => rw [hc] at hcms; exact Option.noConfusion hcms
    | cons p rest => rfl
  have hupe : cmsExpires cmsJ = strToDate e := by
    unfold cmsExpires
    rw [hexp]
  rw [make_request_nonlogin net now st method url none params data hne]
  by_cases hlt : strToDate e < now
  · have hup : update_session net now st = login net st := by
      unfold update_session
      rw [hcms]
      show (if now > cmsExpires cmsJ then login net st
        else ⟨st, [], [], Except.ok ()⟩) = login net st
      rw [hupe, if_pos hlt]
    rw [hup]
    rcases hlg : login net st with ⟨st1, h1, tr1, res⟩
    have htc : tokenCount tr1 = 1 ∧ tr1.head? = some (tokenRequest st) := by
      have h2 := tokenCount_login net st
      rw [hlg] at h2
      exact h2
    cases res with
    | error e2 =>
      dsimp only
      constructor
      · rw [if_pos hlt]
        exact htc.1
      · intro _
        rcases tr1 with _ | ⟨a, tl⟩
        · exact Option.noConfusion htc.2
        · have ha : a = tokenRequest st := by
            have h3 := htc.2
            injection h3
          rw [ha]
          rfl
    | ok u =>
      dsimp only
      constructor
      · rw [tokenCount_append, htc.1, tokenCount_single, builtRequest_url,
          if_neg hurl, if_pos hlt]
      · intro _
        rcases tr1 with _ | ⟨a, tl⟩
        · exact Option.noConfusion htc.2
        · have ha : a = tokenRequest st := by
            have h3 := htc.2
            injection h3
          rw [ha]
          rfl
  · have hup : update_session net now st
        = (⟨st, [], [], Except.ok ()⟩ : CallOut Unit) := by
      unfold update_session
      rw [hcms]
      show (if now > cmsExpires cmsJ then login net st
        else ⟨st, [], [], Except.ok ()⟩) = ⟨st, [], [], Except.ok ()⟩
      rw [hupe, if_neg hlt]
    rw [hup]
    dsimp only
    constructor
    · rw [if_neg hlt, List.nil_append, tokenCount_single, builtRequest_url,
        if_neg hurl]
    · intro hc
      exact absurd hc hlt

/-- A session state whose `cms.expires` timestamp is the string "100". -/
def stBoundary : St :=
  { initSt "mail@example.com" "hunter2" "en-US" with
      config := [("access_token", Json.str "T"),
        ("cms", Json.obj [("bucket", Json.str "/b"),
          ("expires", Json.str "100")])] }

/-- C1 counterexample: with `cms.expires` parsing to exactly the current
time (expires = now = 100), the claim demands exactly one re-login, but the
source's strict comparison `current_time > expires_time` performs none —
the call issues no token-exchange request, only the original request. -/
theorem expiry_boundary_no_relogin :
    strToDate "100" = 100 ∧
    tokenCount (make_request netOK 100 stBoundary "GET" SEARCH_ENDPOINT
      none [] [] false).trace = 0 ∧
    (make_request netOK 100 stBoundary "GET" SEARCH_ENDPOINT
      none [] [] false).trace.length = 1 :=
  ⟨rfl, rfl, rfl⟩

/-- C1 witness: the strict gating evaluated at a concrete expired session
(expires parses to 100, now = 200). -/
theorem expiry_gating_strict_witness :
    tokenCount (make_request netOK 200 stBoundary "GET" SEARCH_ENDPOINT
      none [] [] false).trace = (if strToDate "100" < 200 then 1 else 0) ∧
    (strToDate "100" < 200 →
      ((make_request netOK 200 stBoundary "GET" SEARCH_ENDPOINT
        none [] [] false).trace.head?.map (fun r => r.url))
        = some TOKEN_ENDPOINT) :=
  expiry_gating_strict netOK 200 stBoundary "GET" SEARCH_ENDPOINT [] []
    (Json.obj [("bucket", Json.str "/b"), ("expires", Json.str "100")])
    "100" rfl rfl (by decide)

theorem isNotStartedR_classify (code : Nat) (text : String) (j : Json) :
    isNotStartedR (classify code text j) = false := by
  unfold classify
  repeat' split
  all_goals rfl

/-- The fields of a successful token-exchange body. -/
def tokenBodyFields : JDict :=
  [("access_token", Json.str "AT"), ("token_type", Json.str "Bearer")]

/-- A successful token-exchange body. -/
def tokenBody : Json := Json.obj tokenBodyFields

/-- A transport whose token exchange succeeds but whose every other request
fails with a bare 500. -/
def netPartial : Net := fun req =>
  if req.url = TOKEN_ENDPOINT then (200, "", tokenBody)
  else (500, "internal failure", Json.obj [])

/-- C2 counterexample: a login whose token-exchange step succeeds but whose
index step fails leaves the session state partial — it contains
`access_token` but no `cms` block — and that partial state is observable:
a subsequent non-login call passes the `NotStarted` guard and issues its
network request. -/
theorem partial_login_state_observable :
    isOkR (rawResult netPartial stFresh "POST" TOKEN_ENDPOINT
      (some tokenHeaders) [] (tokenData stFresh)) = true ∧
    isOkR (login netPartial stFresh).result = false ∧
    dictHasKey (login netPartial stFresh).st.config "access_token" = true ∧
    dictHasKey (login netPartial stFresh).st.config "cms" = false ∧
    isNotStartedR (make_request netPartial 0 (login netPartial stFresh).st
      "GET" SEARCH_ENDPOINT none [] [] false).result = false ∧
    (make_request netPartial 0 (login netPartial stFresh).st
      "GET" SEARCH_ENDPOINT none [] [] false).trace.length = 1 :=
  ⟨rfl, rfl, rfl, rfl, rfl, rfl⟩

/-- C2 amended: the session state is NOT always empty-or-complete — for any
transport whose token exchange succeeds (with a body carrying
`access_token` and no `cms`) and whose index step then fails, `_login` on a
fresh client aborts with the index step's error but leaves the partially
merged state behind: the config contains `access_token`, contains no `cms`
block, and is non-empty, so every subsequent non-login call passes the
`NotStarted` guard and issues its request against the partial state. -/
theorem login_partial_merge (net : Net) (st : St) (tb : JDict) (t1 : String)
    (hnet : net (tokenRequest st) = (200, t1, Json.obj tb))
    (hne : jHasKey (Json.obj tb) "error" = false)
    (hnm : jHasKey (Json.obj tb) "message" = false)
    (hat : dictHasKey tb "access_token" = true)
    (hcms : dictHasKey tb "cms" = false)
    (hcfg : st.config = [])
    (hidx : isOkR (rawResult net (applyTokenResponse st (Json.obj tb)) "GET"
      INDEX_ENDPOINT none [] []) = false) :
    isOkR (login net st).result = false ∧
    dictHasKey (login net st).st.config "access_token" = true ∧
    dictHasKey (login net st).st.config "cms" = false ∧
    (∀ net2 now2 m u p d,
      isNotStartedR (make_request net2 now2 (login net st).st m u none p d
        false).result = false ∧
      (make_request net2 now2 (login net st).st m u none p d false).trace
        ≠ []) := by
  have htok : rawResult net st "POST" TOKEN_ENDPOINT (some tokenHeaders) []
      (tokenData st) = Except.ok (Json.obj tb) := by
    unfold rawResult
    rw [show builtRequest st "POST" TOKEN_ENDPOINT (some tokenHeaders) []
      (tokenData st) = tokenRequest st from rfl, hnet]
    simp [classify, hne, hnm]
  rcases hri : rawResult net (applyTokenResponse st (Json.obj tb)) "GET"
      INDEX_ENDPOINT none [] [] with e2 | r2
  case ok =>
    rw [hri] at hidx
    exact Bool.noConfusion hidx
  have hlst : (login net st).st
      = stAfterRaw (applyTokenResponse st (Json.obj tb)) none ∧
      (login net st).result = Except.error e2 := by
    constructor <;> simp [login, htok, withTrace, loginIndex, hri]
  have hconf : (login net st).st.config = dictUpdate [] tb := by
    rw [hlst.1]
    show (applyTokenResponse st (Json.obj tb)).config = dictUpdate [] tb
    show configUpdate st.config (Json.obj tb) = dictUpdate [] tb
    rw [hcfg]
    rfl
  have hhk : dictHasKey (login net st).st.config "access_token" = true := by
    rw [hconf, dictHasKey_dictUpdate]
    rw [hat]
    rfl
  have hhc : dictHasKey (login net st).st.config "cms" = false := by
    rw [hconf, dictHasKey_dictUpdate]
    rw [hcms]
    rfl
  refine ⟨by rw [hlst.2]; rfl, hhk, hhc, ?_⟩
  intro net2 now2 m u p d
  have hnev : (login net st).st.config.isEmpty = false := by
    unfold dictHasKey at hhk
    rcases hg : dictGet (login net st).st.config "access_token" with _ | v
    · rw [hg] at hhk
      exact Bool.noConfusion hhk
    · exact dictGet_some_not_isEmpty _ _ _ hg
  have hnoc : dictGet (login net st).st.config "cms" = none := by
    unfold dictHasKey at hhc
    rcases hg : dictGet (login net st).st.config "cms" with _ | v
    · rfl
    · rw [hg] at hhc
      exact Bool.noConfusion hhc
  have hup : update_session net2 now2 (login net st).st
      = (⟨(login net st).st, [], [], Except.ok ()⟩ : CallOut Unit) := by
    unfold update_session
    rw [hnoc]
  rw [make_request_nonlogin net2 now2 (login net st).st m u none p d hnev,
    hup]
  constructor
  · exact isNotStartedR_classify _ _ _
  · simp

/-- C2 witness: the partial-merge behavior evaluated on the concrete
transport whose token exchange succeeds and whose index step fails. -/
theorem login_partial_merge_witness :
    isOkR (login netPartial stFresh).result = false ∧
    dictHasKey (login netPartial stFresh).st.config "access_token" = true ∧
    isNotStartedR (make_request netPartial 0 (login netPartial stFresh).st
      "GET" NEWSFEED_ENDPOINT none [] [] false).result = false :=
  ⟨(login_partial_merge netPartial stFresh tokenBodyFields "" rfl rfl rfl rfl
      rfl rfl rfl).1,
    (login_partial_merge netPartial stFresh tokenBodyFields "" rfl rfl rfl rfl
      rfl rfl rfl).2.1,
    ((login_partial_merge netPartial stFresh tokenBodyFields "" rfl rfl rfl rfl
      rfl rfl rfl).2.2.2 netPartial 0 "GET" NEWSFEED_ENDPOINT [] []).1⟩
